import Mathlib

/-!
Verification development for the KnifeToGunFight simulation core
(`Code/Objects/Laser.py` and `Code/StateHandlers/LevelHandler.py`).

The per-tick game logic is embedded shallowly: pygame rectangles become
rational-coordinate rectangles (the spec's "PixelRect in continuous pixel
space"), entity mutation becomes explicit state passing, and the Python
`for`-loop over a list that is mutated in place (the laser pass of
`LevelHandler.Run`) is embedded with CPython's index-based iterator
semantics.
-/

namespace KnifeToGunFight

/-- An axis-aligned rectangle: the `pygame.Rect` stored in every game
object's `Coordinates` field (the spec's PixelRect, in continuous pixel
space). -/
structure Rect where
  x : ℚ
  y : ℚ
  w : ℚ
  h : ℚ
  deriving DecidableEq, Repr

/-- The pygame method `Rect.colliderect`: two rectangles collide when they overlap;
rectangles that only share an edge do not collide. -/
def collide (a b : Rect) : Bool :=
  (a.x < b.x + b.w) && (b.x < a.x + a.w) && (a.y < b.y + b.h) && (b.y < a.y + a.h)

/-- The `Math.Vector2` value type: a 2D vector with `X` and `Y`
components. -/
structure Vector2 where
  X : ℚ
  Y : ℚ
  deriving DecidableEq, Repr

/-- The `Utilities.CollisionDetection.MoveDirection` enum: the four cardinal
movement directions. -/
inductive MoveDirection where
  | up
  | down
  | left
  | right
  deriving DecidableEq, Repr

/-- Modelled from the spec: `GameObject.Move` (file `Objects/GameObject.py`
is not among the sources; its callers and the `Laser` docstring say the
given x and y deltas are added to the object's position). -/
def moveRect (r : Rect) (dx dy : ℚ) : Rect :=
  { r with x := r.x + dx, y := r.y + dy }

/-- A laser projectile (`Objects/Laser.py`).  `id` models Python object
identity (used by `list.remove`, which compares with `==`, which for these
objects is identity).  `Coordinates` and `HasBeenReflected` live on the
object (`HasBeenReflected` is read at `LevelHandler.py` line 212; nothing
in the sources ever writes it, so it keeps its initial value). -/
structure Laser where
  id : ℕ
  Coordinates : Rect
  Trajectory : Vector2
  HasBeenReflected : Bool
  deriving DecidableEq, Repr

/-- The method `Laser.Update` (`Laser.py` lines 44-45): `self.Move(self.Trajectory.X,
self.Trajectory.Y)`.  Note the method accepts no `dt` argument, although
`LevelHandler.Run` (line 99) invokes it with one. -/
def Laser.Update (l : Laser) : Laser :=
  { l with Coordinates := moveRect l.Coordinates l.Trajectory.X l.Trajectory.Y }

/-- The method `Laser.Reflect` (`Laser.py` lines 50-55): multiplies both trajectory
components by `-1`, in place.  It does not touch `HasBeenReflected`. -/
def Laser.Reflect (l : Laser) : Laser :=
  { l with Trajectory := ⟨l.Trajectory.X * (-1), l.Trajectory.Y * (-1)⟩ }

end KnifeToGunFight

namespace KnifeToGunFight

/-- The sword/laser collision handling of `LevelHandler.Run` (lines
125-134): when the player's sword is swinging, every laser whose rectangle
collides with the sword's bounding rectangle has `Reflect` called on it;
nothing is removed, and nothing besides `Reflect` happens to a laser. -/
def swordReflectLasers (isSwinging : Bool) (swordBoundingRect : Rect)
    (lasers : List Laser) : List Laser :=
  if isSwinging then
    lasers.map (fun laser =>
      if collide swordBoundingRect laser.Coordinates then Laser.Reflect laser else laser)
  else lasers

/-- The static method `LevelHandler.GetDirectionTowardPosition` (lines 286-299): the cardinal
direction(s) from `origin_position` toward `target_position`, appended in
the source's order Up, Down, Left, Right; empty when the target is `None`
or equals the origin. -/
def GetDirectionTowardPosition (origin_position : Vector2)
    (target_position : Option Vector2) : List MoveDirection :=
  match target_position with
  | none => []
  | some t =>
    (if origin_position.Y > t.Y then [MoveDirection.up] else []) ++
    (if origin_position.Y < t.Y then [MoveDirection.down] else []) ++
    (if origin_position.X > t.X then [MoveDirection.left] else []) ++
    (if origin_position.X < t.X then [MoveDirection.right] else [])

/-- The three movement zones of the enemy policy. -/
inductive EnemyMovementClass where
  | retreat
  | hold
  | approach
  deriving DecidableEq, Repr

/-- The zone decision of `LevelHandler.UpdateEnemies` (lines 238-248), as a
function of the straight-line grid distance to the player:
`MINIMUM_DISTANCE = 3.5`, `DESIRED_DISTANCE = 4.5`, both compared with
strict `<`; too close → retreat branch, else within desired distance →
`continue` (hold), else → approach branch. -/
def enemyMovementClass (distance_to_player : ℚ) : EnemyMovementClass :=
  let too_close := distance_to_player < (3.5 : ℚ)
  let within_desired_distance := distance_to_player < (4.5 : ℚ)
  if too_close then .retreat
  else if within_desired_distance then .hold
  else .approach

/-- The retreat branch of `LevelHandler.UpdateEnemies` (line 244): the
directions attempted are `GetDirectionTowardPosition(player_position_vector,
enemy_position_vector)` — origin is the player's grid position, target is
the enemy's. -/
def retreatDirections (player_position_vector enemy_position_vector : Vector2) :
    List MoveDirection :=
  GetDirectionTowardPosition player_position_vector (some enemy_position_vector)

/-- One grid step of enemy movement in a cardinal direction (screen
coordinates: `up` decreases Y, `down` increases Y, `left` decreases X,
`right` increases X), with step size `s`. -/
def stepInDirection (p : Vector2) (d : MoveDirection) (s : ℚ) : Vector2 :=
  match d with
  | .up => ⟨p.X, p.Y - s⟩
  | .down => ⟨p.X, p.Y + s⟩
  | .left => ⟨p.X - s, p.Y⟩
  | .right => ⟨p.X + s, p.Y⟩

/-- The separation between two positions on the axis a direction moves
along: the Y axis for up/down, the X axis for left/right. -/
def axisSeparation (a b : Vector2) (d : MoveDirection) : ℚ :=
  match d with
  | .up => |a.Y - b.Y|
  | .down => |a.Y - b.Y|
  | .left => |a.X - b.X|
  | .right => |a.X - b.X|

/-- The externally observable actions taken for one enemy during one pass
of `LevelHandler.UpdateEnemies`: whether the enemy was removed from the
map, whether `TargetPlayer` was invoked, whether `TryShooting` was
invoked, and which movement directions were attempted. -/
structure EnemyUpdateTrace where
  removed : Bool
  targetedPlayer : Bool
  triedShooting : Bool
  attemptedDirections : List MoveDirection
  deriving DecidableEq, Repr

/-- The per-enemy body of `LevelHandler.UpdateEnemies` (lines 209-277).
Values computed by files not among the sources enter as parameters:
`isTurret` is the `isinstance(enemy, Turret)` test, `distance_to_player`
is the value returned by `Pathing.GetDirectDistanceBetweenGridPositions`,
`path_next_position` is the second cell of the `Pathing.GetPath` result
(`none` when the path is `None`), `enemyCenter` is the pixel center of the
enemy's rectangle and `cellWidth`/`cellHeight` are
`GameObject.WidthPixels`/`HeightPixels`.  The body: lasers that are marked
reflected and collide with the enemy kill it (`RemoveObject` plus
`continue`); otherwise the enemy targets, tries to shoot, and then moves
according to the three-zone policy. -/
def updateEnemyStep (enemyCoordinates : Rect) (lasers : List Laser)
    (isTurret : Bool) (player_position_vector enemy_position_vector : Vector2)
    (distance_to_player : ℚ) (path_next_position : Option Vector2)
    (enemyCenter : Vector2) (cellWidth cellHeight : ℚ) : EnemyUpdateTrace :=
  let lasers_that_kill_enemy := lasers.filter
    (fun laser => laser.HasBeenReflected && collide enemyCoordinates laser.Coordinates)
  if 0 < lasers_that_kill_enemy.length then
    { removed := true, targetedPlayer := false, triedShooting := false,
      attemptedDirections := [] }
  else if isTurret then
    { removed := false, targetedPlayer := true, triedShooting := true,
      attemptedDirections := [] }
  else if distance_to_player < (3.5 : ℚ) then
    { removed := false, targetedPlayer := true, triedShooting := true,
      attemptedDirections :=
        retreatDirections player_position_vector enemy_position_vector }
  else if distance_to_player < (4.5 : ℚ) then
    { removed := false, targetedPlayer := true, triedShooting := true,
      attemptedDirections := [] }
  else
    match path_next_position with
    | none =>
      { removed := false, targetedPlayer := true, triedShooting := true,
        attemptedDirections := [] }
    | some nxt =>
      { removed := false, targetedPlayer := true, triedShooting := true,
        attemptedDirections :=
          GetDirectionTowardPosition enemyCenter
            (some ⟨(nxt.X + 0.5) * cellWidth, (nxt.Y + 0.5) * cellHeight⟩) }

/-- Python's `list.remove(x)`: deletes the first element equal to `x`.
These laser objects compare by identity (no `__eq__` is defined for them),
which the `id` field models.  Removing an absent element raises
`ValueError`, which the caller catches and ignores, so the net effect of
the wall loop is a single removal. -/
def removeLaser (lasers : List Laser) (laser : Laser) : List Laser :=
  lasers.eraseP (fun other => other.id == laser.id)

/-- The laser pass of `LevelHandler.Run` (lines 98-110) with CPython's
list-iterator semantics: the iterator keeps an integer index into the live
list; each iteration updates the laser at the current index in place, then
— if the updated laser collides with any wall — immediately removes it
from the live list (`self.Map.Lasers.remove(laser)` runs inside the
loop); the index then advances by one over the possibly-shrunk list.
`fuel` bounds the recursion; the caller passes the initial list length,
which suffices because the list never grows. -/
def laserLoop (walls : List Rect) : ℕ → ℕ → List Laser → List Laser
  | 0, _, lasers => lasers
  | fuel + 1, i, lasers =>
    match lasers[i]? with
    | none => lasers
    | some laser =>
      let updated := Laser.Update laser
      let afterUpdate := lasers.set i updated
      let laser_hit_wall := walls.any (fun wall => collide wall updated.Coordinates)
      let afterRemoval :=
        if laser_hit_wall then removeLaser afterUpdate updated else afterUpdate
      laserLoop walls fuel (i + 1) afterRemoval

/-- The complete laser/wall pass: iterate from index 0 over the live laser
list. -/
def laserWallPass (lasers : List Laser) (walls : List Rect) : List Laser :=
  laserLoop walls lasers.length 0 lasers

/-- The laser/wall pass as the spec describes it, for comparison with
`laserWallPass`: every laser present at the start of the pass is advanced,
and the removals decided during the enumeration are buffered and applied
only after the enumeration completes. -/
def laserWallPassBuffered (lasers : List Laser) (walls : List Rect) : List Laser :=
  (lasers.map Laser.Update).filter
    (fun laser => !(walls.any (fun wall => collide wall laser.Coordinates)))

/-- Modelled from the spec: `LevelMap.ObjectInBounds`
(`Graphics/LevelMap.py` is not among the sources; the spec says it reports
whether an entity's rectangle lies fully within the grid's pixel extent,
here of width `W` and height `H`). -/
def ObjectInBounds (W H : ℚ) (laser : Laser) : Bool :=
  (0 ≤ laser.Coordinates.x) && (laser.Coordinates.x + laser.Coordinates.w ≤ W) &&
    (0 ≤ laser.Coordinates.y) && (laser.Coordinates.y + laser.Coordinates.h ≤ H)

/-- Line 113 of `LevelHandler.Run`: keep only the lasers still in
bounds. -/
def removeOutOfBoundsLasers (W H : ℚ) (lasers : List Laser) : List Laser :=
  lasers.filter (ObjectInBounds W H)

/-- The laser-related phases of one tick of `LevelHandler.Run`, in source
order: the wall pass (lines 98-110), the out-of-bounds filter (line 113),
then the sword-collision check (lines 125-134). -/
def laserPhase (W H : ℚ) (walls : List Rect) (isSwinging : Bool)
    (sword : Rect) (lasers : List Laser) : List Laser :=
  swordReflectLasers isSwinging sword
    (removeOutOfBoundsLasers W H (laserWallPass lasers walls))

/-- The entity-kind tags relevant to the player's collision allow-list. -/
inductive GameObjectClass where
  | teleporter
  | wall
  | enemy
  | other
  deriving DecidableEq, Repr

/-- Lines 165-168 of `LevelHandler.HandlePlayerInteraction`: the player
may overlap a `Teleporter` only when the teleporter is activated;
otherwise the allow-list is empty. -/
def allowedCollisionClasses (teleporter_activated : Bool) : List GameObjectClass :=
  if teleporter_activated then [.teleporter] else []

/-- The movement-intent flags for the four keys checked by
`HandlePlayerInteraction` (lines 173-180), in the source's order. -/
structure PressedKeys where
  w : Bool
  a : Bool
  s : Bool
  d : Bool
  deriving DecidableEq, Repr

/-- Modelled from the spec: the object each of the player's four
directional move attempts reports as collided (`Objects/Player.py` and
`Utilities/CollisionDetection.py` are not among the sources; the spec's
Collision Resolver returns the blocking/collided entity, if any, of an
attempted move). -/
structure MoveResults where
  up : Option GameObjectClass
  left : Option GameObjectClass
  down : Option GameObjectClass
  right : Option GameObjectClass
  deriving DecidableEq, Repr

/-- Lines 170-180: `collided_object` starts as `None` and each pressed
key's move attempt overwrites it with that attempt's result, in the order
W, A, S, D. -/
def collidedObjectAfterMovement (pressed : PressedKeys)
    (results : MoveResults) : Option GameObjectClass :=
  let c0 : Option GameObjectClass := none
  let c1 := if pressed.w then results.up else c0
  let c2 := if pressed.a then results.left else c1
  let c3 := if pressed.s then results.down else c2
  if pressed.d then results.right else c3

/-- The method `LevelHandler.HandlePlayerInteraction` (lines 144-197), given the
movement results: after movement, if any laser collides with the player
the laser is removed and `(False, False)` is returned (player died);
otherwise the first component reports whether the final collided object is
a `Teleporter` (the `isinstance` test of line 195) and the player is
alive. -/
def HandlePlayerInteraction (pressed : PressedKeys) (results : MoveResults)
    (player_hit_laser : Bool) : Bool × Bool :=
  let collided_object := collidedObjectAfterMovement pressed results
  if player_hit_laser then (false, false)
  else (collided_object == some GameObjectClass.teleporter, true)

/-- Modelled from the spec: `Teleporter.Update`
(`Objects/Teleporter.py` is not among the sources; the spec says the
teleporter becomes activated when the enemy count on the map reaches
zero).  `LevelHandler.Run` reads `teleporter.Activated` right after the
update, and `teleporter_activated` stays `False` when no teleporter is on
the map. -/
def teleporterActivatedAfterUpdate (teleporter_present : Bool)
    (enemy_count : ℕ) : Bool :=
  teleporter_present && (enemy_count == 0)

/-- Python `str.replace(pattern, replacement)` on character lists: replace
every occurrence, scanning left to right.  `fuel` bounds the recursion;
callers pass the string length. -/
def replaceAllChars (pattern replacement : List Char) :
    ℕ → List Char → List Char
  | 0, s => s
  | _, [] => []
  | fuel + 1, c :: rest =>
    if pattern.isPrefixOf (c :: rest) then
      replacement ++
        replaceAllChars pattern replacement fuel ((c :: rest).drop pattern.length)
    else c :: replaceAllChars pattern replacement fuel rest

/-- Python `str.replace` on `String`. -/
def pyReplace (s pattern replacement : String) : String :=
  ⟨replaceAllChars pattern.data replacement.data s.data.length s.data⟩

/-- Python `int(...)` on a string of decimal digits. -/
def pyInt (s : String) : ℕ :=
  s.data.foldl (fun n c => 10 * n + (c.toNat - Char.toNat '0')) 0

/-- Lines 86-92 of `LevelHandler.Run`: the next level's filename —
strip `Level` and `.txt` from the basename, parse the remaining number,
add 1, and format `Level{n}.txt` again. -/
def nextLevelFilepath (basename : String) : String :=
  "Level" ++ toString (pyInt (pyReplace (pyReplace basename "Level" "") ".txt" "") + 1) ++ ".txt"

/-- The three ways a tick of `LevelHandler.Run` can resolve: keep
running, restart the current level (player died), or advance to the next
level (an activated teleporter was used). -/
inductive TickOutcome where
  | continueRunning
  | restartLevel (filepath : String)
  | levelComplete (filepath : String)
  deriving DecidableEq, Repr

/-- Whether a tick outcome is the LEVEL_COMPLETE signal. -/
def TickOutcome.isLevelComplete : TickOutcome → Bool
  | .levelComplete _ => true
  | _ => false

/-- The decision portion of one tick of `LevelHandler.Run` (lines 63-92):
update the teleporter's activation from the current enemy count, run
`HandlePlayerInteraction` with that activation, return a restart when the
player died, and return LEVEL_COMPLETE (with the incremented level
filepath) exactly when the player's final movement collision is the
teleporter and the teleporter is activated. -/
def runTickDecision (level_filepath : String) (teleporter_present : Bool)
    (enemy_count : ℕ) (pressed : PressedKeys) (results : MoveResults)
    (player_hit_laser : Bool) : TickOutcome :=
  let teleporter_activated :=
    teleporterActivatedAfterUpdate teleporter_present enemy_count
  let r := HandlePlayerInteraction pressed results player_hit_laser
  let collided_with_teleporter := r.1
  let player_alive := r.2
  if !player_alive then .restartLevel level_filepath
  else if collided_with_teleporter && teleporter_activated then
    .levelComplete (nextLevelFilepath level_filepath)
  else .continueRunning

/-- C1: the spec claims that advancing a projectile for a tick of duration
`dt` adds `Trajectory * dt` to its position.  The code evaluated at the
failing input (a laser at (10, 20) with trajectory (3, 4), `dt = 1/4`):
`Laser.Update` adds the trajectory unscaled, so the new x position is 13,
not 10 + 3 * (1/4); its y position is 24, not 20 + 4 * (1/4).  (Moreover
`Laser.Update` takes no `dt` parameter at all, so the loop's call
`laser.Update(time_since_last_update_in_seconds)` raises a `TypeError`.) -/
theorem laser_update_ignores_dt :
    (Laser.Update ⟨0, ⟨10, 20, 16, 16⟩, ⟨3, 4⟩, false⟩).Coordinates.x = 13 ∧
    (Laser.Update ⟨0, ⟨10, 20, 16, 16⟩, ⟨3, 4⟩, false⟩).Coordinates.y = 24 ∧
    (Laser.Update ⟨0, ⟨10, 20, 16, 16⟩, ⟨3, 4⟩, false⟩).Coordinates.x ≠
      10 + 3 * (1 / 4 : ℚ) ∧
    (Laser.Update ⟨0, ⟨10, 20, 16, 16⟩, ⟨3, 4⟩, false⟩).Coordinates.y ≠
      20 + 4 * (1 / 4 : ℚ) := by
  norm_num [Laser.Update, moveRect]

/-- C3: `Reflect` applied twice restores the original trajectory exactly
(both components), for every projectile. -/
theorem reflect_reflect_restores_trajectory (l : Laser) :
    (Laser.Reflect (Laser.Reflect l)).Trajectory.X = l.Trajectory.X ∧
    (Laser.Reflect (Laser.Reflect l)).Trajectory.Y = l.Trajectory.Y ∧
    Laser.Reflect (Laser.Reflect l) = l := by
  obtain ⟨i, c, ⟨tx, ty⟩, r⟩ := l
  simp [Laser.Reflect, mul_neg_one]

/-- C2: the claim says a projectile whose rectangle intersects the swinging
sword's bounding rectangle gets its reflected flag (`HasBeenReflected`) set
to true, its trajectory negated, and is not removed.  The code evaluated at
such a projectile (laser at (10, 10) with trajectory (3, -4), sword
bounding rectangle at (12, 12), swinging): the trajectory is negated and
the laser stays on the map, but `HasBeenReflected` remains `false` —
`Laser.Reflect` never writes it, and nothing else in the sources does. -/
theorem sword_reflection_leaves_flag_false :
    swordReflectLasers true ⟨12, 12, 16, 16⟩
        [⟨0, ⟨10, 10, 16, 16⟩, ⟨3, -4⟩, false⟩] =
      [⟨0, ⟨10, 10, 16, 16⟩, ⟨-3, 4⟩, false⟩] ∧
    (swordReflectLasers true ⟨12, 12, 16, 16⟩
        [⟨0, ⟨10, 10, 16, 16⟩, ⟨3, -4⟩, false⟩]).map Laser.HasBeenReflected =
      [false] := by
  norm_num [swordReflectLasers, collide, Laser.Reflect]

/-- C6: zone classification of a Walker enemy by straight-line grid
distance `d` to the player: `d < 3.5` gives RETREAT, `3.5 ≤ d < 4.5` gives
HOLD, `4.5 ≤ d` gives APPROACH; in particular `d = 3.5` and `d = 4.49`
give HOLD and `d = 4.5` gives APPROACH (strict-`<` boundaries). -/
theorem enemy_zone_thresholds :
    (∀ d : ℚ, d < 3.5 → enemyMovementClass d = .retreat) ∧
    (∀ d : ℚ, 3.5 ≤ d → d < 4.5 → enemyMovementClass d = .hold) ∧
    (∀ d : ℚ, 4.5 ≤ d → enemyMovementClass d = .approach) ∧
    enemyMovementClass 3.5 = .hold ∧
    enemyMovementClass 4.49 = .hold ∧
    enemyMovementClass 4.5 = .approach := by
  refine ⟨fun d h => ?_, fun d h1 h2 => ?_, fun d h => ?_, ?_, ?_, ?_⟩
  · simp only [enemyMovementClass]
    rw [if_pos h]
  · simp only [enemyMovementClass]
    rw [if_neg (not_lt.mpr h1), if_pos h2]
  · simp only [enemyMovementClass]
    rw [if_neg (not_lt.mpr (le_trans (by norm_num) h)),
      if_neg (not_lt.mpr h)]
  · norm_num [enemyMovementClass]
  · norm_num [enemyMovementClass]
  · norm_num [enemyMovementClass]

/-- Witness for C6 at concrete distances 2, 4 and 6. -/
theorem enemy_zone_thresholds_witness :
    enemyMovementClass 2 = .retreat ∧ enemyMovementClass 4 = .hold ∧
    enemyMovementClass 6 = .approach :=
  ⟨enemy_zone_thresholds.1 2 (by norm_num),
   enemy_zone_thresholds.2.1 4 (by norm_num) (by norm_num),
   enemy_zone_thresholds.2.2.1 6 (by norm_num)⟩

/-- Membership characterization for `GetDirectionTowardPosition` with a
present target: a direction is returned exactly when its strict coordinate
comparison holds. -/
theorem mem_getDirectionTowardPosition (ox oy tx ty : ℚ) (d : MoveDirection) :
    d ∈ GetDirectionTowardPosition ⟨ox, oy⟩ (some ⟨tx, ty⟩) ↔
      (d = .up ∧ oy > ty) ∨ (d = .down ∧ oy < ty) ∨
      (d = .left ∧ ox > tx) ∨ (d = .right ∧ ox < tx) := by
  simp only [GetDirectionTowardPosition]
  split_ifs <;> cases d <;> simp_all <;> linarith

/-- C7: every direction the retreat branch attempts (computed by
`GetDirectionTowardPosition(player, enemy)`, line 244) strictly increases
the enemy's separation from the player on the corresponding axis, for any
positive step size — i.e. the retreat movement really points away from the
player. -/
theorem retreat_directions_point_away (player enemy : Vector2) (s : ℚ)
    (hs : 0 < s) (d : MoveDirection)
    (hd : d ∈ retreatDirections player enemy) :
    axisSeparation (stepInDirection enemy d s) player d >
      axisSeparation enemy player d := by
  obtain ⟨px, py⟩ := player
  obtain ⟨ex, ey⟩ := enemy
  rw [retreatDirections, mem_getDirectionTowardPosition] at hd
  cases d <;> simp_all only [axisSeparation, stepInDirection, reduceCtorEq,
    false_and, false_or, or_false, true_and]
  · rw [abs_of_neg (by linarith), abs_of_neg (by linarith)]
    linarith
  · rw [abs_of_pos (by linarith), abs_of_pos (by linarith)]
    linarith
  · rw [abs_of_neg (by linarith), abs_of_neg (by linarith)]
    linarith
  · rw [abs_of_pos (by linarith), abs_of_pos (by linarith)]
    linarith

/-- Witness for C7: player at (0, 2), enemy at (0, 5); the retreat branch
computes direction Down, and a unit step down moves the enemy from
separation 3 to separation 4. -/
theorem retreat_directions_point_away_witness :
    axisSeparation (stepInDirection ⟨0, 5⟩ .down 1) ⟨0, 2⟩ .down >
      axisSeparation ⟨0, 5⟩ ⟨0, 2⟩ .down :=
  retreat_directions_point_away ⟨0, 2⟩ ⟨0, 5⟩ 1 (by norm_num) .down
    (by norm_num [retreatDirections, GetDirectionTowardPosition])

/-- C10: `GetDirectionTowardPosition` never returns two opposite
directions (at most one of Up/Down and at most one of Left/Right), its
result has length at most 2, and the result is empty exactly when the
target is `None` or coincides with the origin. -/
theorem direction_list_well_formed (origin : Vector2)
    (target : Option Vector2) :
    (MoveDirection.up ∈ GetDirectionTowardPosition origin target →
      MoveDirection.down ∉ GetDirectionTowardPosition origin target) ∧
    (MoveDirection.left ∈ GetDirectionTowardPosition origin target →
      MoveDirection.right ∉ GetDirectionTowardPosition origin target) ∧
    (GetDirectionTowardPosition origin target).length ≤ 2 ∧
    (GetDirectionTowardPosition origin target = [] ↔
      target = none ∨ target = some origin) := by
  cases target with
  | none => simp [GetDirectionTowardPosition]
  | some t =>
    obtain ⟨tx, ty⟩ := t
    obtain ⟨ox, oy⟩ := origin
    refine ⟨?_, ?_, ?_, ?_⟩
    · intro hu hd
      rw [mem_getDirectionTowardPosition] at hu hd
      simp only [reduceCtorEq, false_and, false_or, or_false, true_and] at hu hd
      linarith
    · intro hl hr
      rw [mem_getDirectionTowardPosition] at hl hr
      simp only [reduceCtorEq, false_and, false_or, or_false, true_and] at hl hr
      linarith
    · have hud : (if oy > ty then [MoveDirection.up] else []).length +
          (if oy < ty then [MoveDirection.down] else []).length ≤ 1 := by
        split_ifs with h1 h2 <;> simp <;> linarith
      have hlr : (if ox > tx then [MoveDirection.left] else []).length +
          (if ox < tx then [MoveDirection.right] else []).length ≤ 1 := by
        split_ifs with h1 h2 <;> simp <;> linarith
      simp only [GetDirectionTowardPosition, List.length_append]
      omega
    · constructor
      · intro he
        have h1 : ¬oy > ty := by
          intro h
          have : MoveDirection.up ∈ GetDirectionTowardPosition ⟨ox, oy⟩ (some ⟨tx, ty⟩) := by
            rw [mem_getDirectionTowardPosition]
            exact Or.inl ⟨rfl, h⟩
          rw [he] at this
          exact List.not_mem_nil _ this
        have h2 : ¬oy < ty := by
          intro h
          have : MoveDirection.down ∈ GetDirectionTowardPosition ⟨ox, oy⟩ (some ⟨tx, ty⟩) := by
            rw [mem_getDirectionTowardPosition]
            exact Or.inr (Or.inl ⟨rfl, h⟩)
          rw [he] at this
          exact List.not_mem_nil _ this
        have h3 : ¬ox > tx := by
          intro h
          have : MoveDirection.left ∈ GetDirectionTowardPosition ⟨ox, oy⟩ (some ⟨tx, ty⟩) := by
            rw [mem_getDirectionTowardPosition]
            exact Or.inr (Or.inr (Or.inl ⟨rfl, h⟩))
          rw [he] at this
          exact List.not_mem_nil _ this
        have h4 : ¬ox < tx := by
          intro h
          have : MoveDirection.right ∈ GetDirectionTowardPosition ⟨ox, oy⟩ (some ⟨tx, ty⟩) := by
            rw [mem_getDirectionTowardPosition]
            exact Or.inr (Or.inr (Or.inr ⟨rfl, h⟩))
          rw [he] at this
          exact List.not_mem_nil _ this
        right
        simp only [Option.some.injEq, Vector2.mk.injEq]
        constructor <;> linarith
      · rintro (h | h)
        · exact absurd h (by simp)
        · simp only [Option.some.injEq, Vector2.mk.injEq] at h
          obtain ⟨rfl, rfl⟩ := h
          simp [GetDirectionTowardPosition, lt_irrefl]

/-- Witness for C10: origin (0, 3), target (0, 0): Up is in the returned
list, so Down is not. -/
theorem direction_list_well_formed_witness :
    MoveDirection.down ∉ GetDirectionTowardPosition ⟨0, 3⟩ (some ⟨0, 0⟩) :=
  (direction_list_well_formed ⟨0, 3⟩ (some ⟨0, 0⟩)).1
    (by norm_num [GetDirectionTowardPosition])

/-- C4: during one enemy-update pass, an enemy is removed exactly when
some laser whose reflected flag is true collides with its rectangle (so a
laser whose reflected flag is false never causes a removal), and when the
enemy is removed the remaining per-enemy steps — targeting, shooting and
movement — are all skipped for that tick. -/
theorem enemy_removed_iff_reflected_laser_hit (enemyCoordinates : Rect)
    (lasers : List Laser) (isTurret : Bool)
    (player_position_vector enemy_position_vector : Vector2)
    (distance_to_player : ℚ) (path_next_position : Option Vector2)
    (enemyCenter : Vector2) (cellWidth cellHeight : ℚ) :
    ((updateEnemyStep enemyCoordinates lasers isTurret player_position_vector
        enemy_position_vector distance_to_player path_next_position
        enemyCenter cellWidth cellHeight).removed =
      lasers.any (fun laser =>
        laser.HasBeenReflected && collide enemyCoordinates laser.Coordinates)) ∧
    ((updateEnemyStep enemyCoordinates lasers isTurret player_position_vector
        enemy_position_vector distance_to_player path_next_position
        enemyCenter cellWidth cellHeight).removed = true →
      updateEnemyStep enemyCoordinates lasers isTurret player_position_vector
        enemy_position_vector distance_to_player path_next_position
        enemyCenter cellWidth cellHeight =
      { removed := true, targetedPlayer := false, triedShooting := false,
        attemptedDirections := [] }) := by
  have key : 0 < (lasers.filter (fun laser =>
      laser.HasBeenReflected && collide enemyCoordinates laser.Coordinates)).length ↔
      lasers.any (fun laser =>
        laser.HasBeenReflected && collide enemyCoordinates laser.Coordinates) = true := by
    induction lasers with
    | nil => simp
    | cons a l ih =>
      by_cases h : (a.HasBeenReflected && collide enemyCoordinates a.Coordinates) = true <;>
        simp [List.filter_cons, List.any_cons, h, ih]
  constructor
  · simp only [updateEnemyStep]
    by_cases h : 0 < (lasers.filter (fun laser =>
        laser.HasBeenReflected && collide enemyCoordinates laser.Coordinates)).length
    · rw [if_pos h]
      exact (key.mp h).symm
    · rw [if_neg h]
      have hfalse : lasers.any (fun laser =>
          laser.HasBeenReflected && collide enemyCoordinates laser.Coordinates) = false := by
        cases hany : lasers.any (fun laser =>
            laser.HasBeenReflected && collide enemyCoordinates laser.Coordinates) with
        | false => rfl
        | true => exact absurd (key.mpr hany) h
      rw [hfalse]
      split_ifs <;> try rfl
      cases path_next_position <;> rfl
  · intro hrem
    simp only [updateEnemyStep] at hrem ⊢
    by_cases h : 0 < (lasers.filter (fun laser =>
        laser.HasBeenReflected && collide enemyCoordinates laser.Coordinates)).length
    · rw [if_pos h]
    · exfalso
      rw [if_neg h] at hrem
      split_ifs at hrem <;> first
        | simp at hrem
        | (cases path_next_position <;> simp at hrem)

/-- Witness for C4: an enemy at (0, 0) overlapped by a reflected laser at
(8, 8) is removed with all remaining steps skipped. -/
theorem enemy_removed_iff_reflected_laser_hit_witness :
    updateEnemyStep ⟨0, 0, 16, 16⟩ [⟨5, ⟨8, 8, 16, 16⟩, ⟨1, 1⟩, true⟩] false
        ⟨0, 0⟩ ⟨1, 1⟩ 2 none ⟨8, 8⟩ 16 16 =
      { removed := true, targetedPlayer := false, triedShooting := false,
        attemptedDirections := [] } :=
  (enemy_removed_iff_reflected_laser_hit ⟨0, 0, 16, 16⟩
      [⟨5, ⟨8, 8, 16, 16⟩, ⟨1, 1⟩, true⟩] false ⟨0, 0⟩ ⟨1, 1⟩ 2 none
      ⟨8, 8⟩ 16 16).2
    (by norm_num [updateEnemyStep, collide, List.filter_cons])

/-- C5 counterexample: two lasers, both colliding with the wall once
advanced.  The actual pass (`laserWallPass`, removal inside the
enumeration) removes the first laser and then skips the second — the
output still contains the second laser with its position unadvanced.  The
buffered pass the claim describes (`laserWallPassBuffered`) advances both
lasers and removes both, returning the empty list. -/
theorem laser_pass_mutates_during_iteration :
    laserWallPass
        [⟨10, ⟨40, 0, 16, 16⟩, ⟨-20, 0⟩, false⟩,
         ⟨11, ⟨8, 0, 16, 16⟩, ⟨2, 0⟩, false⟩]
        [⟨0, 0, 32, 32⟩] =
      [⟨11, ⟨8, 0, 16, 16⟩, ⟨2, 0⟩, false⟩] ∧
    laserWallPassBuffered
        [⟨10, ⟨40, 0, 16, 16⟩, ⟨-20, 0⟩, false⟩,
         ⟨11, ⟨8, 0, 16, 16⟩, ⟨2, 0⟩, false⟩]
        [⟨0, 0, 32, 32⟩] = [] := by
  constructor
  · norm_num [laserWallPass, laserLoop, removeLaser, Laser.Update, moveRect,
      collide]
  · norm_num [laserWallPassBuffered, Laser.Update, moveRect, collide,
      List.filter_cons]

/-- C5 amended: removals are applied immediately during the enumeration
(`list.remove` runs inside the loop), and the CPython iterator then skips
the element that followed the removed laser: whenever the first of two
lasers collides with a wall once advanced, the pass returns exactly the
second laser unvisited — neither advanced, nor wall-checked, nor
removed. -/
theorem laser_removal_skips_following_laser (l1 l2 : Laser)
    (walls : List Rect)
    (h1 : walls.any (fun wall =>
      collide wall (Laser.Update l1).Coordinates) = true) :
    laserWallPass [l1, l2] walls = [l2] := by
  have step2 : removeLaser [Laser.Update l1, l2] (Laser.Update l1) = [l2] := by
    simp [removeLaser]
  have step1 : laserWallPass [l1, l2] walls =
      laserLoop walls 1 1 (removeLaser [Laser.Update l1, l2] (Laser.Update l1)) := by
    show laserLoop walls (1 + 1) 0 [l1, l2] =
      laserLoop walls 1 1 (removeLaser [Laser.Update l1, l2] (Laser.Update l1))
    simp only [laserLoop, List.getElem?_cons_zero, List.set_cons_zero, h1,
      if_true, Nat.zero_add]
  rw [step1, step2]
  show laserLoop walls (0 + 1) 1 [l2] = [l2]
  simp only [laserLoop, List.getElem?_cons_succ, List.getElem?_nil]

/-- Witness for C5's amended claim at a concrete pair of lasers and one
wall. -/
theorem laser_removal_skips_following_laser_witness :
    laserWallPass
        [⟨20, ⟨50, 0, 10, 10⟩, ⟨-30, 0⟩, false⟩,
         ⟨21, ⟨100, 100, 10, 10⟩, ⟨0, 0⟩, false⟩]
        [⟨0, 0, 32, 32⟩] =
      [⟨21, ⟨100, 100, 10, 10⟩, ⟨0, 0⟩, false⟩] :=
  laser_removal_skips_following_laser
    ⟨20, ⟨50, 0, 10, 10⟩, ⟨-30, 0⟩, false⟩
    ⟨21, ⟨100, 100, 10, 10⟩, ⟨0, 0⟩, false⟩
    [⟨0, 0, 32, 32⟩]
    (by norm_num [Laser.Update, moveRect, collide])

/-- C8, the code evaluated at the failing input: laser 0 collides with the
wall once advanced and is removed inside the loop, which makes the
iterator skip laser 1.  Laser 1 — which, advanced, would collide with both
the wall and the swinging sword's bounding rectangle — is therefore never
advanced or wall-checked; it survives to the sword check and is reflected
(trajectory (1, 0) becomes (-1, 0)) instead of being removed. -/
theorem wall_hit_projectile_reflected_after_skip :
    laserPhase 320 320 [⟨0, 0, 32, 32⟩] true ⟨24, 8, 16, 16⟩
        [⟨0, ⟨40, 8, 16, 16⟩, ⟨-20, 0⟩, false⟩,
         ⟨1, ⟨16, 8, 16, 16⟩, ⟨1, 0⟩, false⟩] =
      [⟨1, ⟨16, 8, 16, 16⟩, ⟨-1, 0⟩, false⟩] ∧
    collide ⟨0, 0, 32, 32⟩
      (Laser.Update ⟨1, ⟨16, 8, 16, 16⟩, ⟨1, 0⟩, false⟩).Coordinates = true ∧
    collide ⟨24, 8, 16, 16⟩
      (Laser.Update ⟨1, ⟨16, 8, 16, 16⟩, ⟨1, 0⟩, false⟩).Coordinates = true := by
  refine ⟨?_, ?_, ?_⟩
  · norm_num [laserPhase, laserWallPass, laserLoop, removeLaser, Laser.Update,
      moveRect, collide, removeOutOfBoundsLasers, ObjectInBounds,
      swordReflectLasers, Laser.Reflect, List.filter_cons]
  · norm_num [collide, Laser.Update, moveRect]
  · norm_num [collide, Laser.Update, moveRect]

/-- C9 counterexample: the player's movement this tick collides with the
activated teleporter (W pressed, the move reports the teleporter, enemy
count 0), but a laser also overlaps the player after moving; the code
returns a level restart, not LEVEL_COMPLETE. -/
theorem death_preempts_level_complete :
    runTickDecision "Level1.txt" true 0 ⟨true, false, false, false⟩
        ⟨some .teleporter, none, none, none⟩ true =
      .restartLevel "Level1.txt" ∧
    (runTickDecision "Level1.txt" true 0 ⟨true, false, false, false⟩
        ⟨some .teleporter, none, none, none⟩ true).isLevelComplete = false ∧
    collidedObjectAfterMovement ⟨true, false, false, false⟩
        ⟨some .teleporter, none, none, none⟩ = some .teleporter ∧
    teleporterActivatedAfterUpdate true 0 = true :=
  ⟨rfl, rfl, rfl, rfl⟩

/-- C9 amended: the tick signals LEVEL_COMPLETE iff the final collision
result of processing the pressed keys in W, A, S, D order is the
Teleporter, the teleporter is activated (updated from the current enemy
count before movement is resolved), and no laser overlapped the player
after moving (player death pre-empts level completion); when it does, the
next level's filepath has the level number incremented by 1; and the
player's collision allow-list contains the Teleporter kind exactly when
the teleporter is activated. -/
theorem level_complete_characterization (fp : String) (present : Bool)
    (count : ℕ) (pressed : PressedKeys) (results : MoveResults)
    (hit : Bool) :
    ((runTickDecision fp present count pressed results hit).isLevelComplete =
        true ↔
      (collidedObjectAfterMovement pressed results =
          some GameObjectClass.teleporter ∧
        teleporterActivatedAfterUpdate present count = true ∧ hit = false)) ∧
    ((runTickDecision fp present count pressed results hit).isLevelComplete =
        true →
      runTickDecision fp present count pressed results hit =
        .levelComplete (nextLevelFilepath fp)) ∧
    (∀ b : Bool,
      GameObjectClass.teleporter ∈ allowedCollisionClasses b ↔ b = true) ∧
    nextLevelFilepath "Level1.txt" = "Level2.txt" := by
  refine ⟨?_, ?_, ?_, rfl⟩
  · cases hit
    · by_cases hc : collidedObjectAfterMovement pressed results =
          some GameObjectClass.teleporter <;>
        by_cases ha : teleporterActivatedAfterUpdate present count = true <;>
          simp [runTickDecision, HandlePlayerInteraction,
            TickOutcome.isLevelComplete, hc, ha]
    · simp [runTickDecision, HandlePlayerInteraction,
        TickOutcome.isLevelComplete]
  · intro h
    cases hit
    · by_cases hc : collidedObjectAfterMovement pressed results =
          some GameObjectClass.teleporter <;>
        by_cases ha : teleporterActivatedAfterUpdate present count = true <;>
          simp_all [runTickDecision, HandlePlayerInteraction,
            TickOutcome.isLevelComplete]
    · simp [runTickDecision, HandlePlayerInteraction,
        TickOutcome.isLevelComplete] at h
  · intro b
    cases b <;> simp [allowedCollisionClasses]

/-- Witness for C9's amended claim: on `Level3.txt` with zero enemies, D
pressed and the move reporting the teleporter, no laser hit, the tick
returns LEVEL_COMPLETE with filepath `Level4.txt`. -/
theorem level_complete_characterization_witness :
    runTickDecision "Level3.txt" true 0 ⟨false, false, false, true⟩
        ⟨none, none, none, some .teleporter⟩ false =
      .levelComplete "Level4.txt" := by
  have h := level_complete_characterization "Level3.txt" true 0
    ⟨false, false, false, true⟩ ⟨none, none, none, some .teleporter⟩ false
  have hlc := h.2.1 (h.1.mpr ⟨rfl, rfl, rfl⟩)
  rwa [show nextLevelFilepath "Level3.txt" = "Level4.txt" from rfl] at hlc

end KnifeToGunFight
